import Mathlib

/-!
# Verification of the TzApp weather-planning backend

Shallow embedding of the day-suitability scoring and ranking engine of the
TzApp backend (`weather_service.py`, `smart_planner.py`, `weather_script.py`,
`app.py`), together with proofs of the specified properties.

Real numbers of the Python source (floats) are modelled as rationals `ℚ`;
`round(x, 2)` is modelled as rounding `100 * x` to the nearest integer and
dividing by `100`.  A pandas `DataFrame` of weather observations is modelled
as a `List` of rows in file order; `DataFrame.nlargest(n, 'score')` (which
pandas documents as a stable descending selection with `keep = 'first'`) is
modelled as a stable merge sort by descending score followed by `take n`.
Python `dict` registries are modelled as association lists in literal order,
and a raised `ValueError` is modelled as the `Except.error` case carrying the
message string.
-/

namespace TzApp

/-- One row of the weather observation table (`weather_data.csv`), per the
schema contract used by the engine: coordinates, date, and the five afternoon
measurements.  `afternoon_temp` is stored in Kelvin. -/
structure WeatherRow where
  lat : ℚ
  lon : ℚ
  year : ℕ
  month : ℕ
  day : ℕ
  afternoon_temp : ℚ
  precip : ℚ
  wind_max_speed : ℚ
  humidity_afternoon : ℚ
  cloud_cover_afternoon : ℚ
deriving DecidableEq, Repr

/-- An event's weather-preference profile (`EVENT_CRITERIA` values): the
acceptable temperature range and the four maximum thresholds. -/
structure EventCriteria where
  temp_range : ℚ × ℚ
  max_precip : ℚ
  max_wind : ℚ
  max_humidity : ℚ
  max_clouds : ℚ
deriving DecidableEq, Repr

/-- Python `round(x, 2)`: round to two decimal places. -/
def round2 (x : ℚ) : ℚ := (round (x * 100) : ℤ) / 100

namespace WeatherPlannerService

/-- `weather_service.WeatherPlannerService.kelvin_to_celsius`. -/
def kelvin_to_celsius (temp_k : ℚ) : ℚ := temp_k - 273.15

/-- `weather_service.WeatherPlannerService.calculate_event_score`: score for a
day based on event criteria, as the sum of five clamped components, rounded to
two decimals. -/
def calculate_event_score (row : WeatherRow) (criteria : EventCriteria) : ℚ :=
  let temp_c := kelvin_to_celsius row.afternoon_temp
  let temp_min := criteria.temp_range.1
  let temp_max := criteria.temp_range.2
  let tempScore : ℚ :=
    if temp_min ≤ temp_c ∧ temp_c ≤ temp_max then 30
    else max 0 (30 - (min (abs (temp_c - temp_min)) (abs (temp_c - temp_max))) * 2)
  let precipScore : ℚ :=
    if row.precip ≤ criteria.max_precip then 25
    else max 0 (25 - (row.precip - criteria.max_precip) * 10)
  let windScore : ℚ :=
    if row.wind_max_speed ≤ criteria.max_wind then 20
    else max 0 (20 - (row.wind_max_speed - criteria.max_wind) * 3)
  let humidityScore : ℚ :=
    if row.humidity_afternoon ≤ criteria.max_humidity then 15
    else max 0 (15 - (row.humidity_afternoon - criteria.max_humidity) * 0.3)
  let cloudScore : ℚ :=
    if row.cloud_cover_afternoon ≤ criteria.max_clouds then 10
    else max 0 (10 - (row.cloud_cover_afternoon - criteria.max_clouds) * 0.2)
  round2 (tempScore + precipScore + windScore + humidityScore + cloudScore)

/-- `weather_service.CITY_COORDINATES`, in literal order. -/
def CITY_COORDINATES : List (String × (ℚ × ℚ)) :=
  [("Alba", (46.06667, 23.58333)),
   ("Arad", (46.16667, 21.31667)),
   ("Bacau", (46.56667, 26.91667)),
   ("Baia Mare", (47.65969, 23.56808)),
   ("Bistrita", (47.13316, 24.50069)),
   ("Brasov", (45.64861, 25.60613)),
   ("Bucuresti", (44.43225, 26.10626)),
   ("Buzau", (45.14802, 26.82148)),
   ("Cluj", (46.76667, 23.6)),
   ("Constanta", (44.18073, 28.63432)),
   ("Craiova", (44.31667, 23.8)),
   ("Deva", (45.88333, 22.9)),
   ("Drobeta-Turnu Severin", (44.63188, 22.65648)),
   ("Galati", (45.45, 28.03333)),
   ("Iasi", (47.16667, 27.6)),
   ("Oradea", (47.06667, 21.93333)),
   ("Petrosani", (45.41667, 23.36667)),
   ("Pitesti", (44.85, 24.86667)),
   ("Ramnicu Valcea", (45.1, 24.36667)),
   ("Satu Mare", (47.8, 22.88333)),
   ("Sibiu", (45.8, 24.15)),
   ("Slobozia", (44.56667, 27.36667)),
   ("Suceava", (47.63333, 26.25)),
   ("Timisoara", (45.75372, 21.22571))]

/-- `weather_service.EVENT_CRITERIA`, in literal order. -/
def EVENT_CRITERIA : List (String × EventCriteria) :=
  [("picnic", ⟨(18, 26), 0.5, 4.0, 70, 60⟩),
   ("festival", ⟨(15, 28), 1.0, 6.0, 75, 80⟩),
   ("pool_party", ⟨(22, 32), 0.0, 3.0, 65, 40⟩),
   ("concert", ⟨(12, 25), 0.2, 5.0, 80, 70⟩),
   ("drumetie", ⟨(8, 22), 0.1, 7.0, 80, 70⟩),
   ("nunta", ⟨(16, 26), 0.0, 3.0, 65, 30⟩),
   ("zi_nastere", ⟨(15, 27), 0.3, 4.0, 75, 60⟩)]

end WeatherPlannerService

namespace SmartPlanner

/-- `smart_planner.kelvin_to_celsius` (duplicate of the service's). -/
def kelvin_to_celsius (temp_k : ℚ) : ℚ := temp_k - 273.15

/-- `smart_planner.calculate_event_score` (free-function duplicate of
`WeatherPlannerService.calculate_event_score`). -/
def calculate_event_score (row : WeatherRow) (criteria : EventCriteria) : ℚ :=
  let temp_c := kelvin_to_celsius row.afternoon_temp
  let temp_min := criteria.temp_range.1
  let temp_max := criteria.temp_range.2
  let tempScore : ℚ :=
    if temp_min ≤ temp_c ∧ temp_c ≤ temp_max then 30
    else max 0 (30 - (min (abs (temp_c - temp_min)) (abs (temp_c - temp_max))) * 2)
  let precipScore : ℚ :=
    if row.precip ≤ criteria.max_precip then 25
    else max 0 (25 - (row.precip - criteria.max_precip) * 10)
  let windScore : ℚ :=
    if row.wind_max_speed ≤ criteria.max_wind then 20
    else max 0 (20 - (row.wind_max_speed - criteria.max_wind) * 3)
  let humidityScore : ℚ :=
    if row.humidity_afternoon ≤ criteria.max_humidity then 15
    else max 0 (15 - (row.humidity_afternoon - criteria.max_humidity) * 0.3)
  let cloudScore : ℚ :=
    if row.cloud_cover_afternoon ≤ criteria.max_clouds then 10
    else max 0 (10 - (row.cloud_cover_afternoon - criteria.max_clouds) * 0.2)
  round2 (tempScore + precipScore + windScore + humidityScore + cloudScore)

/-- `smart_planner.CITY_COORDINATES` (literal duplicate of the service's). -/
def CITY_COORDINATES : List (String × (ℚ × ℚ)) :=
  [("Alba", (46.06667, 23.58333)),
   ("Arad", (46.16667, 21.31667)),
   ("Bacau", (46.56667, 26.91667)),
   ("Baia Mare", (47.65969, 23.56808)),
   ("Bistrita", (47.13316, 24.50069)),
   ("Brasov", (45.64861, 25.60613)),
   ("Bucuresti", (44.43225, 26.10626)),
   ("Buzau", (45.14802, 26.82148)),
   ("Cluj", (46.76667, 23.6)),
   ("Constanta", (44.18073, 28.63432)),
   ("Craiova", (44.31667, 23.8)),
   ("Deva", (45.88333, 22.9)),
   ("Drobeta-Turnu Severin", (44.63188, 22.65648)),
   ("Galati", (45.45, 28.03333)),
   ("Iasi", (47.16667, 27.6)),
   ("Oradea", (47.06667, 21.93333)),
   ("Petrosani", (45.41667, 23.36667)),
   ("Pitesti", (44.85, 24.86667)),
   ("Ramnicu Valcea", (45.1, 24.36667)),
   ("Satu Mare", (47.8, 22.88333)),
   ("Sibiu", (45.8, 24.15)),
   ("Slobozia", (44.56667, 27.36667)),
   ("Suceava", (47.63333, 26.25)),
   ("Timisoara", (45.75372, 21.22571))]

/-- `smart_planner.EVENT_CRITERIA` (literal duplicate of the service's). -/
def EVENT_CRITERIA : List (String × EventCriteria) :=
  [("picnic", ⟨(18, 26), 0.5, 4.0, 70, 60⟩),
   ("festival", ⟨(15, 28), 1.0, 6.0, 75, 80⟩),
   ("pool_party", ⟨(22, 32), 0.0, 3.0, 65, 40⟩),
   ("concert", ⟨(12, 25), 0.2, 5.0, 80, 70⟩),
   ("drumetie", ⟨(8, 22), 0.1, 7.0, 80, 70⟩),
   ("nunta", ⟨(16, 26), 0.0, 3.0, 65, 30⟩),
   ("zi_nastere", ⟨(15, 27), 0.3, 4.0, 75, 60⟩)]

end SmartPlanner

/-- Input schema of the weather-category classifier (the pydantic `WeatherData`
model in `weather_script.py` and the keyword arguments of
`predict_weather_optimized`). -/
structure WeatherArgs where
  temperature : ℚ
  precipitation : ℚ
  wind : ℚ
  relative_humidity : ℚ
  altitude : ℚ
  air_pressure : ℚ
deriving DecidableEq, Repr

namespace WeatherModel

/-- Failure of `WeatherModel.predict_weather_optimized`: either one of its own
input validations (a `ValueError` whose message names the offending field), or
a failure escaping the opaque learned model (re-raised by the `except` clause). -/
inductive PredictError where
  | invalidMeasurement (msg : String)
  | modelFailure (msg : String)
deriving DecidableEq, Repr

/-- Message of the humidity range validation. -/
def humidityMsg : String := "Umiditatea relativă trebuie să fie între 0 și 100%"

/-- Message of the negative-precipitation validation. -/
def precipMsg : String := "Precipitațiile nu pot fi negative"

/-- Message of the negative-wind validation. -/
def windMsg : String := "Viteza vântului nu poate fi negativă"

/-- Message of the negative-pressure validation. -/
def pressureMsg : String := "Presiunea atmosferică nu poate fi negativă"

/-- The derived feature vector built by `predict_weather_optimized` (and, for
the training table, by `create_optimized_features`), in the order of
`optimal_features`. -/
def features (w : WeatherArgs) : List ℚ :=
  let feels_like := w.temperature + 0.3 * w.relative_humidity - 0.7 * w.wind
  let precip_humidity_interaction := w.precipitation * w.relative_humidity
  let temp_pressure_interaction := w.temperature * (w.air_pressure / 1000)
  let is_freezing : ℚ := if w.temperature ≤ 0 then 1 else 0
  let is_raining : ℚ := if w.precipitation > 0.005 then 1 else 0
  let is_windy : ℚ := if w.wind > 8 then 1 else 0
  let is_humid : ℚ := if w.relative_humidity > 2.0 then 1 else 0
  let is_high_altitude : ℚ := if w.altitude > 800 then 1 else 0
  [w.temperature, w.precipitation, w.wind, w.relative_humidity, w.altitude,
   w.air_pressure, feels_like, precip_humidity_interaction,
   temp_pressure_interaction, is_freezing, is_raining, is_windy, is_humid,
   is_high_altitude]

/-- The opaque learned model (`self.model.predict` composed with the label
decoding): a black-box collaborator taking the feature vector and either
producing a label or failing. -/
def Model : Type := List ℚ → Except String String

/-- `weather_script.WeatherModel.predict_weather_optimized`: validates the
physical ranges of the inputs (raising a `ValueError` naming the offending
field), then invokes the opaque model on the derived feature vector.  The
`isinstance` numeric type check of the source is vacuous here since all inputs
are rationals by type. -/
def predict_weather_optimized (model : Model) (w : WeatherArgs) :
    Except PredictError String :=
  if w.relative_humidity < 0 ∨ w.relative_humidity > 100 then
    .error (.invalidMeasurement humidityMsg)
  else if w.precipitation < 0 then .error (.invalidMeasurement precipMsg)
  else if w.wind < 0 then .error (.invalidMeasurement windMsg)
  else if w.air_pressure < 0 then .error (.invalidMeasurement pressureMsg)
  else
    match model (features w) with
    | .ok category => .ok category
    | .error e => .error (.modelFailure e)

end WeatherModel

/-- A row as seen by `categorize_weather_ml` / `_fallback_categorization`: a
pandas `Series` accessed with `row['afternoon_temp']` (required — a missing
key would raise) and `row.get(...)` with defaults for the other three fields
(modelled as `Option` with `getD`). -/
structure MLRow where
  afternoon_temp : ℚ
  precip : Option ℚ
  wind_max_speed : Option ℚ
  humidity_afternoon : Option ℚ
deriving DecidableEq, Repr

namespace WeatherPlannerService

/-- `weather_service.WeatherPlannerService._fallback_categorization`: simple
rule-based weather categorization used when the ML model is not available. -/
def fallback_categorization (row : MLRow) : String :=
  let temp_celsius := kelvin_to_celsius row.afternoon_temp
  let precipitation := (row.precip).getD 0.0
  if temp_celsius ≤ 0 ∧ precipitation > 0.001 then "snow"
  else if precipitation ≥ 0.03 then "heavy_rain"
  else if precipitation ≥ 0.005 then "light_rain"
  else if temp_celsius ≥ 20 then "hot"
  else if temp_celsius < 10 then "cold"
  else "sunny"

/-- The argument tuple `categorize_weather_ml` passes to
`predict_weather_optimized`: temperature converted to Celsius, the observed
precipitation/wind/humidity with defaults `0.0`, `0.0`, `50.0` when missing,
and the constants `altitude = 100.0`, `air_pressure = 1013.25`. -/
def mlCallArgs (row : MLRow) : WeatherArgs :=
  { temperature := kelvin_to_celsius row.afternoon_temp
    precipitation := (row.precip).getD 0.0
    wind := (row.wind_max_speed).getD 0.0
    relative_humidity := (row.humidity_afternoon).getD 50.0
    altitude := 100.0
    air_pressure := 1013.25 }

/-- `weather_service.WeatherPlannerService.categorize_weather_ml`: categorize
via the ML model when one is loaded, falling back to the rule-based
categorization when the model is absent (`self.ml_model is None`) or when its
invocation fails (the `except` clause). -/
def categorize_weather_ml (ml_model : Option WeatherModel.Model) (row : MLRow) :
    String :=
  match ml_model with
  | none => fallback_categorization row
  | some model =>
    match WeatherModel.predict_weather_optimized model (mlCallArgs row) with
    | .ok category => category
    | .error _ => fallback_categorization row

end WeatherPlannerService

namespace App

/-- `app.categorize_weather` (the `/categorize-weather` endpoint): rule-based
categorization applied to a `WeatherData` payload, in the stated priority
order. -/
def categorize_weather (weather_data : WeatherArgs) : String :=
  let temp := weather_data.temperature
  let precip := weather_data.precipitation
  if temp ≤ 0 ∧ precip > 0.001 then "snow"
  else if precip ≥ 0.03 then "heavy_rain"
  else if 0.005 ≤ precip ∧ precip < 0.03 then "light_rain"
  else if temp ≥ 20 then "hot"
  else if temp < 10 ∧ precip < 0.005 then "cold"
  else if 10 ≤ temp ∧ temp < 20 ∧ precip < 0.005 then "sunny"
  else "sunny"

end App

/-- The spec's deterministic fallback rule table (§4.3), as ordered Boolean
guards paired with labels, at a given temperature (°C) and precipitation.
Written from the spec's wording with its exact operator strictness. -/
def specFallbackRules (temp precip : ℚ) : List (Bool × String) :=
  [(decide (temp ≤ 0) && decide (precip > 0.001), "snow"),
   (decide (precip ≥ 0.03), "heavy_rain"),
   (decide (0.005 ≤ precip) && decide (precip < 0.03), "light_rain"),
   (decide (temp ≥ 20), "hot"),
   (decide (temp < 10) && decide (precip < 0.005), "cold"),
   (decide (10 ≤ temp) && decide (temp < 20) && decide (precip < 0.005), "sunny")]

/-- First-match evaluation of an ordered rule list, with a default label. -/
def firstMatch (dflt : String) : List (Bool × String) → String
  | [] => dflt
  | (hit, lbl) :: rest => if hit then lbl else firstMatch dflt rest

/-- The spec's fallback classifier: first-match over `specFallbackRules`,
defaulting to `"sunny"`. -/
def specFallbackClassifier (temp precip : ℚ) : String :=
  firstMatch "sunny" (specFallbackRules temp precip)

/-- A row of the score-augmented table `month_data` after the
`month_data['score'] = ...apply(...)` assignment: the observation row together
with its score column. -/
structure RowWithScore where
  row : WeatherRow
  score : ℚ
deriving DecidableEq, Repr

/-- Descending comparison on the score column: `a` may come before `b` when
`b.score ≤ a.score`. -/
def scoreGE (a b : RowWithScore) : Bool := decide (b.score ≤ a.score)

/-- pandas `nlargest(limit, 'score')` with the default `keep = 'first'`:
the first `limit` rows of the table stably sorted by descending score. -/
def nlargest (limit : ℕ) (rows : List RowWithScore) : List RowWithScore :=
  (rows.mergeSort scoreGE).take limit

namespace WeatherPlannerService

/-- A Python `ValueError` raised by `find_best_days`, carrying its message. -/
inductive PlannerError where
  | valueError (msg : String)
deriving DecidableEq, Repr

/-- `", ".join(CITY_COORDINATES.keys())`. -/
def available_cities : String :=
  String.intercalate ", " (CITY_COORDINATES.map Prod.fst)

/-- `", ".join(EVENT_CRITERIA.keys())`. -/
def available_events : String :=
  String.intercalate ", " (EVENT_CRITERIA.map Prod.fst)

/-- The unknown-city `ValueError` message of
`WeatherPlannerService.find_best_days` (`\x27` is the ASCII apostrophe). -/
def unknownCityMsg (city : String) : String :=
  "City \x27" ++ city ++ "\x27 not available. Available cities: " ++
    available_cities

/-- The unknown-event `ValueError` message of
`WeatherPlannerService.find_best_days`. -/
def unknownEventMsg (event : String) : String :=
  "Event \x27" ++ event ++ "\x27 not available. Available events: " ++
    available_events

/-- `city_data`: the observation rows whose coordinates exactly equal the
city's registered coordinates. -/
def city_data (db : List WeatherRow) (coords : ℚ × ℚ) : List WeatherRow :=
  db.filter fun r => decide (r.lat = coords.1 ∧ r.lon = coords.2)

/-- `month_data`: `city_data` further filtered to the requested month and
year. -/
def month_data (db : List WeatherRow) (coords : ℚ × ℚ) (month year : ℕ) :
    List WeatherRow :=
  (city_data db coords).filter fun r => decide (r.month = month ∧ r.year = year)

/-- The `month_data['score'] = month_data.apply(...)` step: attach the event
score to every remaining row. -/
def scored_rows (rows : List WeatherRow) (criteria : EventCriteria) :
    List RowWithScore :=
  rows.map fun r => ⟨r, calculate_event_score r criteria⟩

/-- The row view handed to `categorize_weather_ml`: all four measurement
fields are present on a dataset row. -/
def toMLRow (r : WeatherRow) : MLRow :=
  ⟨r.afternoon_temp, some r.precip, some r.wind_max_speed,
   some r.humidity_afternoon⟩

/-- A row of the returned `best_days` frame: the selected columns plus the
derived `temp_celsius` and `weather_category` columns. -/
structure ScoredDay where
  year : ℕ
  month : ℕ
  day : ℕ
  score : ℚ
  afternoon_temp : ℚ
  precip : ℚ
  wind_max_speed : ℚ
  humidity_afternoon : ℚ
  cloud_cover_afternoon : ℚ
  temp_celsius : ℚ
  weather_category : String
deriving DecidableEq, Repr

/-- Column selection plus the `temp_celsius` and `weather_category`
assignments applied to one selected row. -/
def finalize_day (ml_model : Option WeatherModel.Model) (s : RowWithScore) :
    ScoredDay :=
  { year := s.row.year
    month := s.row.month
    day := s.row.day
    score := s.score
    afternoon_temp := s.row.afternoon_temp
    precip := s.row.precip
    wind_max_speed := s.row.wind_max_speed
    humidity_afternoon := s.row.humidity_afternoon
    cloud_cover_afternoon := s.row.cloud_cover_afternoon
    temp_celsius := kelvin_to_celsius s.row.afternoon_temp
    weather_category := categorize_weather_ml ml_model (toMLRow s.row) }

/-- `weather_service.WeatherPlannerService.find_best_days`: validate city and
event against the registries, filter the dataset to the city's coordinates and
the requested month/year, short-circuit to an empty result when nothing
matches, score every remaining row, select the `limit` best by `nlargest`, and
finalize each selected row.  The dataset (the parsed CSV) and the optional ML
model (`self.ml_model`) are passed explicitly. -/
def find_best_days (ml_model : Option WeatherModel.Model)
    (db : List WeatherRow) (city event : String) (month year : ℕ)
    (limit : ℕ) : Except PlannerError (List ScoredDay) :=
  match CITY_COORDINATES.lookup city with
  | none => .error (.valueError (unknownCityMsg city))
  | some coords =>
    match EVENT_CRITERIA.lookup event with
    | none => .error (.valueError (unknownEventMsg event))
    | some criteria =>
      let md := month_data db coords month year
      if md.isEmpty then .ok []
      else .ok ((nlargest limit (scored_rows md criteria)).map
        (finalize_day ml_model))

end WeatherPlannerService

namespace SmartPlanner

/-- A Python `ValueError` raised by `smart_planner.find_best_days`. -/
inductive PlannerError where
  | valueError (msg : String)
deriving DecidableEq, Repr

/-- The unknown-city `ValueError` message of `smart_planner.find_best_days`. -/
def unknownCityMsg (city : String) : String :=
  "Orașul " ++ city ++ " nu este în lista disponibilă"

/-- The unknown-event `ValueError` message of `smart_planner.find_best_days`. -/
def unknownEventMsg (event : String) : String :=
  "Evenimentul " ++ event ++ " nu este în lista disponibilă"

/-- A row of `smart_planner`'s returned `best_days` frame: the selected
columns plus `temp_celsius` (this variant attaches no weather category). -/
structure BestDay where
  year : ℕ
  month : ℕ
  day : ℕ
  score : ℚ
  afternoon_temp : ℚ
  precip : ℚ
  wind_max_speed : ℚ
  humidity_afternoon : ℚ
  cloud_cover_afternoon : ℚ
  temp_celsius : ℚ
deriving DecidableEq, Repr

/-- Column selection plus the `temp_celsius` assignment of
`smart_planner.find_best_days`. -/
def finalize_day (s : RowWithScore) : BestDay :=
  { year := s.row.year
    month := s.row.month
    day := s.row.day
    score := s.score
    afternoon_temp := s.row.afternoon_temp
    precip := s.row.precip
    wind_max_speed := s.row.wind_max_speed
    humidity_afternoon := s.row.humidity_afternoon
    cloud_cover_afternoon := s.row.cloud_cover_afternoon
    temp_celsius := kelvin_to_celsius s.row.afternoon_temp }

/-- `smart_planner.find_best_days`: the free-function duplicate of the
pipeline, with the selection size fixed to `5` (`nlargest(5, 'score')`) and no
weather-category enrichment.  The parsed CSV is the `db` argument. -/
def find_best_days (db : List WeatherRow) (city event : String)
    (month year : ℕ) : Except PlannerError (List BestDay) :=
  match CITY_COORDINATES.lookup city with
  | none => .error (.valueError (unknownCityMsg city))
  | some coords =>
    match EVENT_CRITERIA.lookup event with
    | none => .error (.valueError (unknownEventMsg event))
    | some criteria =>
      let city_data := db.filter fun r =>
        decide (r.lat = coords.1 ∧ r.lon = coords.2)
      let month_data := city_data.filter fun r =>
        decide (r.month = month ∧ r.year = year)
      if month_data.isEmpty then .ok []
      else .ok ((nlargest 5 (month_data.map fun r =>
        ⟨r, calculate_event_score r criteria⟩)).map finalize_day)

end SmartPlanner

/-- The spec's temperature component (§4.1 table): full 30 points inside the
band, otherwise `30 − 2 × min(|t − min|, |t − max|)`, floored at 0. -/
def specTempScore (t tmin tmax : ℚ) : ℚ :=
  if tmin ≤ t ∧ t ≤ tmax then 30
  else max 0 (30 - 2 * min (abs (t - tmin)) (abs (t - tmax)))

/-- The spec's generic threshold component: full `maxPts` when `value` is at
most `threshold`, otherwise `maxPts − rate × (value − threshold)`, floored at
0.  Instantiated at (25, 10) for precipitation, (20, 3) for wind, (15, 0.3)
for humidity and (10, 0.2) for cloud cover. -/
def specPenaltyScore (maxPts rate value threshold : ℚ) : ℚ :=
  if value ≤ threshold then maxPts
  else max 0 (maxPts - rate * (value - threshold))

/-- The claim's statement of the scoring formula: the sum of the five spec
components, with the temperature converted via `celsius = kelvin − 273.15`,
rounded to two decimal places. -/
def specScore (row : WeatherRow) (criteria : EventCriteria) : ℚ :=
  round2 (specTempScore (row.afternoon_temp - 273.15)
      criteria.temp_range.1 criteria.temp_range.2
    + specPenaltyScore 25 10 row.precip criteria.max_precip
    + specPenaltyScore 20 3 row.wind_max_speed criteria.max_wind
    + specPenaltyScore 15 0.3 row.humidity_afternoon criteria.max_humidity
    + specPenaltyScore 10 0.2 row.cloud_cover_afternoon criteria.max_clouds)

/-- Distance of a temperature from the acceptable band `[tmin, tmax]`: zero
inside the band, otherwise the distance to the nearer endpoint.  This is the
measure in which the claim's "moves further outside its acceptable band" is
read for the temperature factor. -/
def tempBandDist (tmin tmax t : ℚ) : ℚ :=
  if tmin ≤ t ∧ t ≤ tmax then 0
  else min (abs (t - tmin)) (abs (t - tmax))

/-- Forget the `weather_category` column of a finalized day, keeping every
other column (the record shape then coincides with `SmartPlanner.BestDay`). -/
def stripCategory (d : WeatherPlannerService.ScoredDay) : SmartPlanner.BestDay :=
  ⟨d.year, d.month, d.day, d.score, d.afternoon_temp, d.precip,
   d.wind_max_speed, d.humidity_afternoon, d.cloud_cover_afternoon,
   d.temp_celsius⟩

/-! ### Properties of the rounding step -/

theorem round2_mono {x y : ℚ} (h : x ≤ y) : round2 x ≤ round2 y := by
  unfold round2
  have hr : round (x * 100) ≤ round (y * 100) := by
    rw [round_eq, round_eq]
    exact Int.floor_mono (by linarith)
  have hc : ((round (x * 100) : ℤ) : ℚ) ≤ ((round (y * 100) : ℤ) : ℚ) := by
    exact_mod_cast hr
  linarith

theorem round2_zero : round2 0 = 0 := by simp [round2]

theorem round2_hundred : round2 100 = 100 := by
  unfold round2
  have h : (100 : ℚ) * 100 = (10000 : ℚ) := by norm_num
  rw [h, round_ofNat]
  norm_num

theorem round2_nonneg {x : ℚ} (h : 0 ≤ x) : 0 ≤ round2 x :=
  round2_zero ▸ round2_mono h

theorem round2_le_hundred {x : ℚ} (h : x ≤ 100) : round2 x ≤ 100 :=
  round2_hundred ▸ round2_mono h

/-! ### Properties of the five score components -/

theorem specTempScore_eq (t tmin tmax : ℚ) :
    specTempScore t tmin tmax = max 0 (30 - 2 * tempBandDist tmin tmax t) := by
  unfold specTempScore tempBandDist
  split_ifs
  · norm_num
  · rfl

theorem tempBandDist_nonneg (tmin tmax t : ℚ) : 0 ≤ tempBandDist tmin tmax t := by
  unfold tempBandDist
  split_ifs
  · exact le_refl 0
  · exact le_min (abs_nonneg _) (abs_nonneg _)

theorem specTempScore_nonneg (t tmin tmax : ℚ) : 0 ≤ specTempScore t tmin tmax := by
  rw [specTempScore_eq]; exact le_max_left _ _

theorem specTempScore_le (t tmin tmax : ℚ) : specTempScore t tmin tmax ≤ 30 := by
  rw [specTempScore_eq]
  have h := tempBandDist_nonneg tmin tmax t
  apply max_le <;> linarith

theorem specTempScore_anti {tmin tmax t t' : ℚ}
    (h : tempBandDist tmin tmax t ≤ tempBandDist tmin tmax t') :
    specTempScore t' tmin tmax ≤ specTempScore t tmin tmax := by
  rw [specTempScore_eq, specTempScore_eq]
  exact max_le_max (le_refl 0) (by linarith)

theorem specPenaltyScore_nonneg (maxPts rate value threshold : ℚ)
    (hm : 0 ≤ maxPts) : 0 ≤ specPenaltyScore maxPts rate value threshold := by
  unfold specPenaltyScore
  split_ifs
  · exact hm
  · exact le_max_left _ _

theorem specPenaltyScore_le (maxPts rate value threshold : ℚ)
    (hm : 0 ≤ maxPts) (hr : 0 ≤ rate) :
    specPenaltyScore maxPts rate value threshold ≤ maxPts := by
  unfold specPenaltyScore
  split_ifs with h
  · exact le_refl _
  · apply max_le hm
    have hv : 0 ≤ rate * (value - threshold) :=
      mul_nonneg hr (by linarith [not_le.mp h])
    linarith

theorem specPenaltyScore_anti (maxPts rate value value' threshold : ℚ)
    (hm : 0 ≤ maxPts) (hr : 0 ≤ rate) (h : value ≤ value') :
    specPenaltyScore maxPts rate value' threshold ≤
      specPenaltyScore maxPts rate value threshold := by
  unfold specPenaltyScore
  split_ifs with h1 h2
  · exact le_refl _
  · exact absurd (h.trans h1) h2
  · apply max_le hm
    have hv : 0 ≤ rate * (value' - threshold) :=
      mul_nonneg hr (by linarith [not_le.mp h1])
    linarith
  · have hv := mul_le_mul_of_nonneg_left
      (show value - threshold ≤ value' - threshold by linarith) hr
    exact max_le_max (le_refl 0) (by linarith)

/-- The service's scoring code computes exactly the spec's five-component
formula (shared bridge lemma). -/
theorem calculate_event_score_eq_specScore (row : WeatherRow)
    (criteria : EventCriteria) :
    WeatherPlannerService.calculate_event_score row criteria =
      specScore row criteria := by
  unfold WeatherPlannerService.calculate_event_score specScore specTempScore
    specPenaltyScore WeatherPlannerService.kelvin_to_celsius
  dsimp only
  congr 1
  split_ifs <;> ring_nf

theorem calculate_event_score_nonneg (row : WeatherRow)
    (criteria : EventCriteria) :
    0 ≤ WeatherPlannerService.calculate_event_score row criteria := by
  rw [calculate_event_score_eq_specScore]
  unfold specScore
  apply round2_nonneg
  have h1 := specTempScore_nonneg (row.afternoon_temp - 273.15)
    criteria.temp_range.1 criteria.temp_range.2
  have h2 := specPenaltyScore_nonneg 25 10 row.precip
    criteria.max_precip (by norm_num)
  have h3 := specPenaltyScore_nonneg 20 3 row.wind_max_speed
    criteria.max_wind (by norm_num)
  have h4 := specPenaltyScore_nonneg 15 0.3 row.humidity_afternoon
    criteria.max_humidity (by norm_num)
  have h5 := specPenaltyScore_nonneg 10 0.2
    row.cloud_cover_afternoon criteria.max_clouds (by norm_num)
  linarith

theorem calculate_event_score_le_hundred (row : WeatherRow)
    (criteria : EventCriteria) :
    WeatherPlannerService.calculate_event_score row criteria ≤ 100 := by
  rw [calculate_event_score_eq_specScore]
  unfold specScore
  apply round2_le_hundred
  have h1 := specTempScore_le (row.afternoon_temp - 273.15)
    criteria.temp_range.1 criteria.temp_range.2
  have h2 := specPenaltyScore_le 25 10 row.precip
    criteria.max_precip (by norm_num) (by norm_num)
  have h3 := specPenaltyScore_le 20 3 row.wind_max_speed
    criteria.max_wind (by norm_num) (by norm_num)
  have h4 := specPenaltyScore_le 15 0.3
    row.humidity_afternoon criteria.max_humidity (by norm_num) (by norm_num)
  have h5 := specPenaltyScore_le 10 0.2
    row.cloud_cover_afternoon criteria.max_clouds (by norm_num) (by norm_num)
  linarith

/-! ### Claim theorems on the scoring function -/

/-- C1: for every weather observation row and every event profile, the scoring
function returns the sum of the five spec components — temperature up to 30
(full 30 when `celsius = kelvin − 273.15` lies in `[min, max]`, else
`max(0, 30 − 2×min(|t−min|, |t−max|))`), precipitation up to 25 (penalty 10
per mm over `max_precip`), wind up to 20 (penalty 3 per m/s over `max_wind`),
humidity up to 15 (penalty 0.3 per % over `max_humidity`), cloud cover up to
10 (penalty 0.2 per % over `max_clouds`) — each floored at 0, with the total
rounded to two decimal places, and the result always lies in `[0, 100]`. -/
theorem calculate_event_score_formula_and_bounds (row : WeatherRow)
    (criteria : EventCriteria) :
    WeatherPlannerService.calculate_event_score row criteria =
        specScore row criteria ∧
      0 ≤ WeatherPlannerService.calculate_event_score row criteria ∧
      WeatherPlannerService.calculate_event_score row criteria ≤ 100 :=
  ⟨calculate_event_score_eq_specScore row criteria,
   calculate_event_score_nonneg row criteria,
   calculate_event_score_le_hundred row criteria⟩

/-- C9: the free function `smart_planner.calculate_event_score` and the static
method `WeatherPlannerService.calculate_event_score` return exactly the same
value on every observation row and criteria record — one canonical scoring
function, duplicated. -/
theorem calculate_event_score_duplicates_agree (row : WeatherRow)
    (criteria : EventCriteria) :
    SmartPlanner.calculate_event_score row criteria =
      WeatherPlannerService.calculate_event_score row criteria := rfl

/-- C3: the suitability score is monotonically non-increasing as any single
one of the five factors moves further outside its acceptable band (measured by
`tempBandDist` for temperature, by the raw value for the four threshold
factors) while the other four are held fixed, and each factor's contribution
to the score never goes below 0. -/
theorem score_factor_monotonicity (row : WeatherRow) (criteria : EventCriteria) :
    (∀ t' : ℚ,
      tempBandDist criteria.temp_range.1 criteria.temp_range.2
          (WeatherPlannerService.kelvin_to_celsius row.afternoon_temp) ≤
        tempBandDist criteria.temp_range.1 criteria.temp_range.2
          (WeatherPlannerService.kelvin_to_celsius t') →
      WeatherPlannerService.calculate_event_score
          { row with afternoon_temp := t' } criteria ≤
        WeatherPlannerService.calculate_event_score row criteria) ∧
    (∀ p' : ℚ, row.precip ≤ p' →
      WeatherPlannerService.calculate_event_score
          { row with precip := p' } criteria ≤
        WeatherPlannerService.calculate_event_score row criteria) ∧
    (∀ w' : ℚ, row.wind_max_speed ≤ w' →
      WeatherPlannerService.calculate_event_score
          { row with wind_max_speed := w' } criteria ≤
        WeatherPlannerService.calculate_event_score row criteria) ∧
    (∀ h' : ℚ, row.humidity_afternoon ≤ h' →
      WeatherPlannerService.calculate_event_score
          { row with humidity_afternoon := h' } criteria ≤
        WeatherPlannerService.calculate_event_score row criteria) ∧
    (∀ c' : ℚ, row.cloud_cover_afternoon ≤ c' →
      WeatherPlannerService.calculate_event_score
          { row with cloud_cover_afternoon := c' } criteria ≤
        WeatherPlannerService.calculate_event_score row criteria) ∧
    0 ≤ specTempScore (WeatherPlannerService.kelvin_to_celsius row.afternoon_temp)
        criteria.temp_range.1 criteria.temp_range.2 ∧
    0 ≤ specPenaltyScore 25 10 row.precip criteria.max_precip ∧
    0 ≤ specPenaltyScore 20 3 row.wind_max_speed criteria.max_wind ∧
    0 ≤ specPenaltyScore 15 0.3 row.humidity_afternoon criteria.max_humidity ∧
    0 ≤ specPenaltyScore 10 0.2 row.cloud_cover_afternoon criteria.max_clouds := by
  refine ⟨?_, ?_, ?_, ?_, ?_, ?_, ?_, ?_, ?_, ?_⟩
  · intro t' hd
    simp only [WeatherPlannerService.kelvin_to_celsius] at hd
    rw [calculate_event_score_eq_specScore, calculate_event_score_eq_specScore]
    unfold specScore
    dsimp only
    apply round2_mono
    have hts := specTempScore_anti hd
    linarith
  · intro p' hp
    rw [calculate_event_score_eq_specScore, calculate_event_score_eq_specScore]
    unfold specScore
    dsimp only
    apply round2_mono
    have hpen := specPenaltyScore_anti 25 10 row.precip p'
      criteria.max_precip (by norm_num) (by norm_num) hp
    linarith
  · intro w' hw
    rw [calculate_event_score_eq_specScore, calculate_event_score_eq_specScore]
    unfold specScore
    dsimp only
    apply round2_mono
    have hpen := specPenaltyScore_anti 20 3 row.wind_max_speed w'
      criteria.max_wind (by norm_num) (by norm_num) hw
    linarith
  · intro h' hh
    rw [calculate_event_score_eq_specScore, calculate_event_score_eq_specScore]
    unfold specScore
    dsimp only
    apply round2_mono
    have hpen := specPenaltyScore_anti 15 0.3 row.humidity_afternoon h'
      criteria.max_humidity (by norm_num) (by norm_num) hh
    linarith
  · intro c' hc
    rw [calculate_event_score_eq_specScore, calculate_event_score_eq_specScore]
    unfold specScore
    dsimp only
    apply round2_mono
    have hpen := specPenaltyScore_anti 10 0.2 row.cloud_cover_afternoon c'
      criteria.max_clouds (by norm_num) (by norm_num) hc
    linarith
  · exact specTempScore_nonneg _ _ _
  · exact specPenaltyScore_nonneg _ _ _ _ (by norm_num)
  · exact specPenaltyScore_nonneg _ _ _ _ (by norm_num)
  · exact specPenaltyScore_nonneg _ _ _ _ (by norm_num)
  · exact specPenaltyScore_nonneg _ _ _ _ (by norm_num)

/-- Witness for C3: raising the precipitation of a concrete in-band May day
from 0 to 1 mm (over picnic's 0.5 mm threshold) does not increase its score. -/
theorem score_factor_monotonicity_witness :
    (⟨0, 0, 2026, 5, 1, 295.15, 0, 0, 50, 0⟩ : WeatherRow).precip ≤ 1 ∧
    WeatherPlannerService.calculate_event_score
        { (⟨0, 0, 2026, 5, 1, 295.15, 0, 0, 50, 0⟩ : WeatherRow) with
          precip := 1 } ⟨(18, 26), 0.5, 4.0, 70, 60⟩ ≤
      WeatherPlannerService.calculate_event_score
        (⟨0, 0, 2026, 5, 1, 295.15, 0, 0, 50, 0⟩ : WeatherRow)
        ⟨(18, 26), 0.5, 4.0, 70, 60⟩ :=
  ⟨by decide,
   (score_factor_monotonicity ⟨0, 0, 2026, 5, 1, 295.15, 0, 0, 50, 0⟩
     ⟨(18, 26), 0.5, 4.0, 70, 60⟩).2.1 1 (by decide)⟩

/-- C4: both in-repo copies of the deterministic fallback classifier evaluate
the spec's rules in the fixed first-match order (snow, heavy_rain, light_rain,
hot, cold, sunny, default sunny) with the spec's exact operator strictness at
each boundary; in particular, temperature exactly 0 °C with precipitation
0.002 classifies as snow, while 0 °C with precipitation 0 falls through the
snow rule to the temperature bands and classifies as cold. -/
theorem fallback_classifier_first_match :
    (∀ row : MLRow,
      WeatherPlannerService.fallback_categorization row =
        specFallbackClassifier
          (WeatherPlannerService.kelvin_to_celsius row.afternoon_temp)
          ((row.precip).getD 0.0)) ∧
    (∀ w : WeatherArgs,
      App.categorize_weather w =
        specFallbackClassifier w.temperature w.precipitation) ∧
    WeatherPlannerService.fallback_categorization
        ⟨273.15, some 0.002, none, none⟩ = "snow" ∧
    App.categorize_weather ⟨0, 0.002, 0, 50, 100, 1013.25⟩ = "snow" ∧
    WeatherPlannerService.fallback_categorization
        ⟨273.15, some 0, none, none⟩ = "cold" ∧
    App.categorize_weather ⟨0, 0, 0, 50, 100, 1013.25⟩ = "cold" := by
  refine ⟨?_, ?_,
    by norm_num [WeatherPlannerService.fallback_categorization,
      WeatherPlannerService.kelvin_to_celsius],
    by norm_num [App.categorize_weather],
    by norm_num [WeatherPlannerService.fallback_categorization,
      WeatherPlannerService.kelvin_to_celsius],
    by norm_num [App.categorize_weather]⟩
  · intro row
    simp only [WeatherPlannerService.fallback_categorization,
      specFallbackClassifier, specFallbackRules, firstMatch,
      Bool.and_eq_true, decide_eq_true_eq]
    split_ifs <;> first | rfl | (exfalso; simp_all)
  · intro w
    simp only [App.categorize_weather, specFallbackClassifier,
      specFallbackRules, firstMatch, Bool.and_eq_true, decide_eq_true_eq]
    split_ifs <;> rfl

/-- C7: `predict_weather_optimized` produces an invalid-measurement error
(naming the offending field in its message) if and only if an input is outside
its documented physical range — relative humidity outside `[0, 100]`, or
negative precipitation, wind, or air pressure — and for in-range input it
returns exactly the label of the (contract-honoring) opaque model, raising
nothing of its own. -/
theorem predict_invalid_measurement_iff (model : WeatherModel.Model)
    (w : WeatherArgs) :
    ((∃ msg, WeatherModel.predict_weather_optimized model w =
        .error (.invalidMeasurement msg)) ↔
      (w.relative_humidity < 0 ∨ 100 < w.relative_humidity ∨
        w.precipitation < 0 ∨ w.wind < 0 ∨ w.air_pressure < 0)) ∧
    ((w.relative_humidity < 0 ∨ 100 < w.relative_humidity) →
      WeatherModel.predict_weather_optimized model w =
        .error (.invalidMeasurement WeatherModel.humidityMsg)) ∧
    (0 ≤ w.relative_humidity → w.relative_humidity ≤ 100 →
      w.precipitation < 0 →
      WeatherModel.predict_weather_optimized model w =
        .error (.invalidMeasurement WeatherModel.precipMsg)) ∧
    (0 ≤ w.relative_humidity → w.relative_humidity ≤ 100 →
      0 ≤ w.precipitation → w.wind < 0 →
      WeatherModel.predict_weather_optimized model w =
        .error (.invalidMeasurement WeatherModel.windMsg)) ∧
    (0 ≤ w.relative_humidity → w.relative_humidity ≤ 100 →
      0 ≤ w.precipitation → 0 ≤ w.wind → w.air_pressure < 0 →
      WeatherModel.predict_weather_optimized model w =
        .error (.invalidMeasurement WeatherModel.pressureMsg)) ∧
    (∀ lbl, 0 ≤ w.relative_humidity → w.relative_humidity ≤ 100 →
      0 ≤ w.precipitation → 0 ≤ w.wind → 0 ≤ w.air_pressure →
      model (WeatherModel.features w) = .ok lbl →
      WeatherModel.predict_weather_optimized model w = .ok lbl) := by
  unfold WeatherModel.predict_weather_optimized
  split_ifs with h1 h2 h3 h4
  · refine ⟨⟨fun _ => ?_, fun _ => ⟨WeatherModel.humidityMsg, rfl⟩⟩,
      fun _ => rfl, fun ha hb _ => ?_, fun ha hb _ _ => ?_,
      fun ha hb _ _ _ => ?_, fun lbl ha hb _ _ _ _ => ?_⟩ <;>
      rcases h1 with h | h
    · exact Or.inl h
    · exact Or.inr (Or.inl h)
    all_goals exact absurd h (by linarith)
  · refine ⟨⟨fun _ => Or.inr (Or.inr (Or.inl h2)),
      fun _ => ⟨WeatherModel.precipMsg, rfl⟩⟩,
      fun h => absurd h h1, fun _ _ _ => rfl,
      fun _ _ hp _ => absurd h2 (by linarith),
      fun _ _ hp _ _ => absurd h2 (by linarith),
      fun lbl _ _ hp _ _ _ => absurd h2 (by linarith)⟩
  · refine ⟨⟨fun _ => Or.inr (Or.inr (Or.inr (Or.inl h3))),
      fun _ => ⟨WeatherModel.windMsg, rfl⟩⟩,
      fun h => absurd h h1, fun _ _ hp => absurd hp h2,
      fun _ _ _ _ => rfl,
      fun _ _ _ hw _ => absurd h3 (by linarith),
      fun lbl _ _ _ hw _ _ => absurd h3 (by linarith)⟩
  · refine ⟨⟨fun _ => Or.inr (Or.inr (Or.inr (Or.inr h4))),
      fun _ => ⟨WeatherModel.pressureMsg, rfl⟩⟩,
      fun h => absurd h h1, fun _ _ hp => absurd hp h2,
      fun _ _ _ hw => absurd hw h3,
      fun _ _ _ _ _ => rfl,
      fun lbl _ _ _ _ hpr _ => absurd h4 (by linarith)⟩
  · refine ⟨⟨?_, ?_⟩, fun h => absurd h h1, fun _ _ hp => absurd hp h2,
      fun _ _ _ hw => absurd hw h3, fun _ _ _ _ hpr => absurd hpr h4,
      fun lbl _ _ _ _ _ hm => by rw [hm]⟩
    · rintro ⟨msg, hm⟩
      cases hfw : model (WeatherModel.features w) <;> rw [hfw] at hm <;>
        simp at hm
    · intro h
      exfalso
      push_neg at h1
      rcases h with h | h | h | h | h
      · linarith [h1.1]
      · linarith [h1.2]
      · exact h2 h
      · exact h3 h
      · exact h4 h

/-- Witness for C7: on the in-range input (20 °C, 0 mm, 0 m/s, 50 %, 100 m,
1013.25 hPa) a model answering `"sunny"` is returned unchanged, with no
error. -/
theorem predict_invalid_measurement_iff_witness :
    (0 : ℚ) ≤ 50 ∧ (50 : ℚ) ≤ 100 ∧ (0 : ℚ) ≤ 0 ∧
    WeatherModel.predict_weather_optimized (fun _ => Except.ok "sunny")
        ⟨20, 0, 0, 50, 100, 1013.25⟩ = .ok "sunny" :=
  ⟨by norm_num, by norm_num, le_refl 0,
   (predict_invalid_measurement_iff (fun _ => Except.ok "sunny")
       ⟨20, 0, 0, 50, 100, 1013.25⟩).2.2.2.2.2 "sunny"
     (by norm_num) (by norm_num) (le_refl 0) (le_refl 0) (by norm_num) rfl⟩

/-- C10: the ranking engine's enrichment step always invokes the classifier
with the constants `altitude = 100.0` and `air_pressure = 1013.25`, takes
temperature (Kelvin→Celsius), precipitation, wind and humidity from the
observation with defaults `0.0`, `0.0`, `50.0` when missing, and consequently
the attached category label depends on nothing else in the observation. -/
theorem categorize_weather_ml_constant_altitude_pressure (row : MLRow) :
    (WeatherPlannerService.mlCallArgs row).altitude = 100 ∧
    (WeatherPlannerService.mlCallArgs row).air_pressure = 1013.25 ∧
    (WeatherPlannerService.mlCallArgs row).temperature =
      WeatherPlannerService.kelvin_to_celsius row.afternoon_temp ∧
    (WeatherPlannerService.mlCallArgs row).precipitation =
      (row.precip).getD 0.0 ∧
    (WeatherPlannerService.mlCallArgs row).wind =
      (row.wind_max_speed).getD 0.0 ∧
    (WeatherPlannerService.mlCallArgs row).relative_humidity =
      (row.humidity_afternoon).getD 50.0 ∧
    (∀ (model : WeatherModel.Model) (row' : MLRow),
      row'.afternoon_temp = row.afternoon_temp →
      row'.precip = row.precip →
      row'.wind_max_speed = row.wind_max_speed →
      row'.humidity_afternoon = row.humidity_afternoon →
      WeatherPlannerService.categorize_weather_ml (some model) row' =
        WeatherPlannerService.categorize_weather_ml (some model) row) := by
  refine ⟨by norm_num [WeatherPlannerService.mlCallArgs], rfl, rfl, rfl, rfl,
    rfl, ?_⟩
  intro model row' h1 h2 h3 h4
  have : row' = row := by
    cases row'
    cases row
    simp_all
  rw [this]

/-- Witness for C10: a concrete invocation uses altitude 100, and rows equal
on the four observation fields get the same label. -/
theorem categorize_weather_ml_constant_witness :
    (WeatherPlannerService.mlCallArgs ⟨280, none, none, none⟩).altitude = 100 ∧
    WeatherPlannerService.categorize_weather_ml
        (some (fun _ => Except.ok "hot")) ⟨280, some 1, none, none⟩ =
      WeatherPlannerService.categorize_weather_ml
        (some (fun _ => Except.ok "hot")) ⟨280, some 1, none, none⟩ :=
  ⟨(categorize_weather_ml_constant_altitude_pressure ⟨280, none, none, none⟩).1,
   (categorize_weather_ml_constant_altitude_pressure
       ⟨280, some 1, none, none⟩).2.2.2.2.2.2
     (fun _ => Except.ok "hot") ⟨280, some 1, none, none⟩ rfl rfl rfl rfl⟩

/-- C8: a classifier failure never fails the ranking: with no model loaded the
per-row fallback label is substituted; a failing model invocation is caught
per-row and replaced by the fallback label; and for every registered query
`find_best_days` succeeds with the same ranked rows (category column aside)
whatever model — failing or absent — is in use. -/
theorem classifier_failure_never_fails_ranking :
    (∀ row : MLRow, WeatherPlannerService.categorize_weather_ml none row =
      WeatherPlannerService.fallback_categorization row) ∧
    (∀ (model : WeatherModel.Model) (row : MLRow)
        (err : WeatherModel.PredictError),
      WeatherModel.predict_weather_optimized model
          (WeatherPlannerService.mlCallArgs row) = .error err →
      WeatherPlannerService.categorize_weather_ml (some model) row =
        WeatherPlannerService.fallback_categorization row) ∧
    (∀ (ml : Option WeatherModel.Model) (db : List WeatherRow)
        (city event : String) (month year limit : ℕ) (coords : ℚ × ℚ)
        (criteria : EventCriteria),
      WeatherPlannerService.CITY_COORDINATES.lookup city = some coords →
      WeatherPlannerService.EVENT_CRITERIA.lookup event = some criteria →
      ∃ out out₀,
        WeatherPlannerService.find_best_days ml db city event month year
            limit = .ok out ∧
        WeatherPlannerService.find_best_days none db city event month year
            limit = .ok out₀ ∧
        out.map stripCategory = out₀.map stripCategory ∧
        out.length = out₀.length) := by
  refine ⟨fun row => rfl, ?_, ?_⟩
  · intro model row err herr
    unfold WeatherPlannerService.categorize_weather_ml
    dsimp only
    rw [herr]
  · intro ml db city event month year limit coords criteria hc he
    unfold WeatherPlannerService.find_best_days
    rw [hc, he]
    dsimp only
    by_cases hmd :
      (WeatherPlannerService.month_data db coords month year).isEmpty = true
    · rw [if_pos hmd, if_pos hmd]
      exact ⟨[], [], rfl, rfl, rfl, rfl⟩
    · rw [if_neg hmd, if_neg hmd]
      refine ⟨_, _, rfl, rfl, ?_, by simp⟩
      rw [List.map_map, List.map_map]
      exact congrArg (fun f => List.map f _) (funext fun s => rfl)

/-- Witness for C8: a model that always fails yields the fallback label for a
concrete row, via the caught `modelFailure` error. -/
theorem classifier_failure_never_fails_ranking_witness :
    WeatherModel.predict_weather_optimized (fun _ => Except.error "boom")
        (WeatherPlannerService.mlCallArgs ⟨280, some 0, some 0, some 50⟩) =
      .error (.modelFailure "boom") ∧
    WeatherPlannerService.categorize_weather_ml
        (some (fun _ => Except.error "boom")) ⟨280, some 0, some 0, some 50⟩ =
      WeatherPlannerService.fallback_categorization
        ⟨280, some 0, some 0, some 50⟩ := by
  have hp : WeatherModel.predict_weather_optimized
      (fun _ => Except.error "boom")
      (WeatherPlannerService.mlCallArgs ⟨280, some 0, some 0, some 50⟩) =
      .error (.modelFailure "boom") := by
    norm_num [WeatherModel.predict_weather_optimized,
      WeatherPlannerService.mlCallArgs, Option.getD_some]
  exact ⟨hp, classifier_failure_never_fails_ranking.2.1 _ _ _ hp⟩

/-! ### Properties of the top-K selection -/

theorem scoreGE_trans : ∀ a b c : RowWithScore,
    scoreGE a b → scoreGE b c → scoreGE a c := by
  intro a b c hab hbc
  simp only [scoreGE, decide_eq_true_eq] at *
  exact le_trans hbc hab

theorem scoreGE_total : ∀ a b : RowWithScore, scoreGE a b || scoreGE b a := by
  intro a b
  simp only [scoreGE, Bool.or_eq_true, decide_eq_true_eq]
  exact le_total b.score a.score

open List in
/-- Stability of the sort underlying `nlargest`: for any predicate `q` on
which the descending comparison is reflexive-compatible (in particular
"score equals `v`"), filtering the sorted table by `q` gives exactly the
filter of the original table, in original order. -/
theorem mergeSort_filter_eq (l : List RowWithScore) (q : RowWithScore → Bool)
    (hq : ∀ a b, q a = true → q b = true → scoreGE a b = true) :
    (l.mergeSort scoreGE).filter q = l.filter q := by
  have hpair : (l.filter q).Pairwise fun a b => scoreGE a b = true := by
    apply List.pairwise_of_forall_mem_list
    intro a ha b hb
    exact hq a b (List.mem_filter.mp ha).2 (List.mem_filter.mp hb).2
  have hsub : l.filter q <+ l.mergeSort scoreGE :=
    List.sublist_mergeSort scoreGE_trans scoreGE_total hpair
      (List.filter_sublist l)
  have hsub2 : l.filter q <+ (l.mergeSort scoreGE).filter q := by
    have h3 := hsub.filter q
    rwa [List.filter_eq_self.mpr (fun a ha => (List.mem_filter.mp ha).2)] at h3
  have hlen : ((l.mergeSort scoreGE).filter q).length = (l.filter q).length :=
    ((List.mergeSort_perm l scoreGE).filter q).length_eq
  exact (hsub2.eq_of_length hlen.symm).symm

open List in
/-- C2: for a registered city and event, `find_best_days` with `limit = L`
succeeds with at most `L` rows, sorted descending by score, with ties between
equal scores preserving the original row order of the filtered dataset (a
stable selection); when `L` is at least the number of matching rows, all of
them are returned (no error is raised). -/
theorem find_best_days_top_limit (ml : Option WeatherModel.Model)
    (db : List WeatherRow) (city event : String) (month year limit : ℕ)
    (coords : ℚ × ℚ) (criteria : EventCriteria)
    (hc : WeatherPlannerService.CITY_COORDINATES.lookup city = some coords)
    (he : WeatherPlannerService.EVENT_CRITERIA.lookup event = some criteria) :
    ∃ out : List WeatherPlannerService.ScoredDay,
      WeatherPlannerService.find_best_days ml db city event month year limit =
        .ok out ∧
      out.length ≤ limit ∧
      out.Pairwise (fun a b => b.score ≤ a.score) ∧
      (∀ v : ℚ,
        out.filter (fun d => decide (d.score = v)) <+
          ((WeatherPlannerService.scored_rows
              (WeatherPlannerService.month_data db coords month year)
              criteria).map (WeatherPlannerService.finalize_day ml)).filter
            (fun d => decide (d.score = v))) ∧
      ((WeatherPlannerService.month_data db coords month year).length ≤ limit →
        out.Perm ((WeatherPlannerService.scored_rows
            (WeatherPlannerService.month_data db coords month year)
            criteria).map (WeatherPlannerService.finalize_day ml))) := by
  unfold WeatherPlannerService.find_best_days
  rw [hc, he]
  dsimp only
  by_cases hmd :
    (WeatherPlannerService.month_data db coords month year).isEmpty = true
  · rw [if_pos hmd]
    have hnil : WeatherPlannerService.month_data db coords month year = [] :=
      List.isEmpty_iff.mp hmd
    refine ⟨[], rfl, by simp, List.Pairwise.nil,
      fun v => List.nil_sublist _, fun _ => ?_⟩
    simp [hnil, WeatherPlannerService.scored_rows]
  · rw [if_neg hmd]
    refine ⟨_, rfl, ?_, ?_, ?_, ?_⟩
    · simp only [List.length_map, nlargest, List.length_take]
      omega
    · have hs := List.sorted_mergeSort scoreGE_trans scoreGE_total
        (WeatherPlannerService.scored_rows
          (WeatherPlannerService.month_data db coords month year) criteria)
      have hs2 := hs.sublist (List.take_sublist limit _)
      rw [List.pairwise_map]
      exact hs2.imp fun h => of_decide_eq_true h
    · intro v
      rw [List.filter_map, List.filter_map]
      apply List.Sublist.map
      have hq : ∀ a b : RowWithScore,
          ((fun d => decide (d.score = v)) ∘
            WeatherPlannerService.finalize_day ml) a = true →
          ((fun d => decide (d.score = v)) ∘
            WeatherPlannerService.finalize_day ml) b = true →
          scoreGE a b = true := by
        intro a b ha hb
        have ha' : a.score = v := of_decide_eq_true ha
        have hb' : b.score = v := of_decide_eq_true hb
        exact decide_eq_true (le_of_eq (hb'.trans ha'.symm))
      have h1 := (List.take_sublist limit
        ((WeatherPlannerService.scored_rows
          (WeatherPlannerService.month_data db coords month year)
          criteria).mergeSort scoreGE)).filter
        ((fun d => decide (d.score = v)) ∘ WeatherPlannerService.finalize_day ml)
      rw [mergeSort_filter_eq _ _ hq] at h1
      exact h1
    · intro hlen
      have htake : ((WeatherPlannerService.scored_rows
          (WeatherPlannerService.month_data db coords month year)
          criteria).mergeSort scoreGE).take limit =
          (WeatherPlannerService.scored_rows
            (WeatherPlannerService.month_data db coords month year)
            criteria).mergeSort scoreGE := by
        apply List.take_of_length_le
        simpa [WeatherPlannerService.scored_rows] using hlen
      simp only [nlargest, htake]
      exact (List.mergeSort_perm _ scoreGE).map _

/-- Witness for C2: a two-row Craiova May-2026 dataset is ranked with at most
five rows returned and no error. -/
theorem find_best_days_top_limit_witness :
    WeatherPlannerService.CITY_COORDINATES.lookup "Craiova" =
        some (44.31667, 23.8) ∧
    WeatherPlannerService.EVENT_CRITERIA.lookup "picnic" =
        some ⟨(18, 26), 0.5, 4.0, 70, 60⟩ ∧
    ∃ out, WeatherPlannerService.find_best_days none
        [⟨44.31667, 23.8, 2026, 5, 1, 295.15, 0, 2, 50, 20⟩,
         ⟨44.31667, 23.8, 2026, 5, 2, 310.15, 5, 9, 90, 95⟩]
        "Craiova" "picnic" 5 2026 5 = .ok out ∧ out.length ≤ 5 := by
  have h := find_best_days_top_limit none
    [⟨44.31667, 23.8, 2026, 5, 1, 295.15, 0, 2, 50, 20⟩,
     ⟨44.31667, 23.8, 2026, 5, 2, 310.15, 5, 9, 90, 95⟩]
    "Craiova" "picnic" 5 2026 5 (44.31667, 23.8) ⟨(18, 26), 0.5, 4.0, 70, 60⟩
    rfl rfl
  obtain ⟨out, h1, h2, -, -, -⟩ := h
  exact ⟨rfl, rfl, out, h1, h2⟩

/-! ### Validation errors and empty results -/

/-- An infix of a list is an infix of any left-extension of it. -/
theorem infix_append_left {α : Type _} (X : List α) {l y : List α}
    (h : l <:+: y) : l <:+: X ++ y := by
  obtain ⟨s, t, rfl⟩ := h
  exact ⟨X ++ s, t, by simp [List.append_assoc]⟩

set_option maxRecDepth 100000 in
/-- Every registered city name occurs in the `available_cities` enumeration
interpolated into the service's unknown-city message. -/
theorem city_names_listed :
    ∀ name ∈ WeatherPlannerService.CITY_COORDINATES.map Prod.fst,
      name.data <:+: WeatherPlannerService.available_cities.data := by decide

set_option maxRecDepth 100000 in
/-- Every registered event name occurs in the `available_events` enumeration
interpolated into the service's unknown-event message. -/
theorem event_names_listed :
    ∀ name ∈ WeatherPlannerService.EVENT_CRITERIA.map Prod.fst,
      name.data <:+: WeatherPlannerService.available_events.data := by decide

/-- C5 (amended): `WeatherPlannerService.find_best_days` rejects an
unregistered city (resp. event) with a `ValueError` whose message lists all
registered cities (resp. events), and does so before any dataset access — the
outcome is the same for every dataset and model.  The `smart_planner`
duplicate also validates both keys before reading the dataset, but its error
message names only the offending key and lists no registry. -/
theorem unknown_city_event_errors (city event : String) :
    (WeatherPlannerService.CITY_COORDINATES.lookup city = none →
      (∀ ml db month year limit,
        WeatherPlannerService.find_best_days ml db city event month year
          limit = .error (.valueError
            (WeatherPlannerService.unknownCityMsg city))) ∧
      ∀ name ∈ WeatherPlannerService.CITY_COORDINATES.map Prod.fst,
        name.data <:+: (WeatherPlannerService.unknownCityMsg city).data) ∧
    (∀ coords,
      WeatherPlannerService.CITY_COORDINATES.lookup city = some coords →
      WeatherPlannerService.EVENT_CRITERIA.lookup event = none →
      (∀ ml db month year limit,
        WeatherPlannerService.find_best_days ml db city event month year
          limit = .error (.valueError
            (WeatherPlannerService.unknownEventMsg event))) ∧
      ∀ name ∈ WeatherPlannerService.EVENT_CRITERIA.map Prod.fst,
        name.data <:+: (WeatherPlannerService.unknownEventMsg event).data) ∧
    (SmartPlanner.CITY_COORDINATES.lookup city = none →
      ∀ db month year, SmartPlanner.find_best_days db city event month year =
        .error (.valueError (SmartPlanner.unknownCityMsg city))) ∧
    (∀ coords, SmartPlanner.CITY_COORDINATES.lookup city = some coords →
      SmartPlanner.EVENT_CRITERIA.lookup event = none →
      ∀ db month year, SmartPlanner.find_best_days db city event month year =
        .error (.valueError (SmartPlanner.unknownEventMsg event))) := by
  refine ⟨fun hc => ⟨?_, ?_⟩, fun coords hc he => ⟨?_, ?_⟩,
    fun hc db month year => ?_, fun coords hc he db month year => ?_⟩
  · intro ml db month year limit
    simp [WeatherPlannerService.find_best_days, hc]
  · intro name hname
    exact infix_append_left
      ("City \x27" ++ city ++ "\x27 not available. Available cities: ").data
      (city_names_listed name hname)
  · intro ml db month year limit
    simp [WeatherPlannerService.find_best_days, hc, he]
  · intro name hname
    exact infix_append_left
      ("Event \x27" ++ event ++ "\x27 not available. Available events: ").data
      (event_names_listed name hname)
  · simp [SmartPlanner.find_best_days, hc]
  · simp [SmartPlanner.find_best_days, hc, he]

/-- C5 counterexample: the `smart_planner` duplicate rejects the unknown city
"Atlantis" with a `ValueError` whose message does not list the registered
cities — it does not even contain the registered city name "Alba". -/
theorem unknown_city_message_no_list :
    SmartPlanner.find_best_days [] "Atlantis" "picnic" 5 2026 =
      .error (.valueError "Orașul Atlantis nu este în lista disponibilă") ∧
    ¬ ("Alba".data <:+:
        ("Orașul Atlantis nu este în lista disponibilă" : String).data) := by
  constructor
  · rfl
  · decide

/-- Witness for C5: the unknown city "Atlantis" is rejected by the service
with the full-list message, for an arbitrary dataset. -/
theorem unknown_city_event_errors_witness :
    WeatherPlannerService.CITY_COORDINATES.lookup "Atlantis" = none ∧
    WeatherPlannerService.find_best_days none [] "Atlantis" "picnic" 5 2026 5 =
      .error (.valueError (WeatherPlannerService.unknownCityMsg "Atlantis")) := by
  have h := (unknown_city_event_errors "Atlantis" "picnic").1 rfl
  exact ⟨rfl, h.1 none [] 5 2026 5⟩

/-- C6: for a registered city and event with zero dataset rows at the city's
coordinates in the requested month and year, `find_best_days` returns the
empty result successfully, an outcome distinct (at the interface) from every
error value. -/
theorem empty_month_is_success (ml : Option WeatherModel.Model)
    (db : List WeatherRow) (city event : String) (month year limit : ℕ)
    (coords : ℚ × ℚ) (criteria : EventCriteria)
    (hc : WeatherPlannerService.CITY_COORDINATES.lookup city = some coords)
    (he : WeatherPlannerService.EVENT_CRITERIA.lookup event = some criteria)
    (hnone : WeatherPlannerService.month_data db coords month year = []) :
    WeatherPlannerService.find_best_days ml db city event month year limit =
      .ok [] ∧
    ∀ e : WeatherPlannerService.PlannerError,
      (Except.ok ([] : List WeatherPlannerService.ScoredDay) :
        Except WeatherPlannerService.PlannerError _) ≠ .error e := by
  constructor
  · unfold WeatherPlannerService.find_best_days
    rw [hc, he]
    dsimp only
    rw [hnone]
    rfl
  · intro e h
    exact Except.noConfusion h

/-- Witness for C6: an empty dataset yields the empty-but-successful result
for Craiova / picnic / May 2026. -/
theorem empty_month_is_success_witness :
    WeatherPlannerService.CITY_COORDINATES.lookup "Craiova" =
        some (44.31667, 23.8) ∧
    WeatherPlannerService.month_data [] (44.31667, 23.8) 5 2026 = [] ∧
    WeatherPlannerService.find_best_days none [] "Craiova" "picnic" 5 2026 5 =
      .ok [] := by
  have h := empty_month_is_success none [] "Craiova" "picnic" 5 2026 5
    (44.31667, 23.8) ⟨(18, 26), 0.5, 4.0, 70, 60⟩ rfl rfl rfl
  exact ⟨rfl, rfl, h.1⟩

end TzApp
